import Mathlib

/-!
Shallow embedding of the document-processing core of `app.py`
(Legacy Logic Pro): the extraction cascade (`extract_text_from_pdf_fast`,
`ocr_image_with_google_vision`, `ocr_pdf_with_cloud`, `process_document`)
and the question-answering prompt assembly (`answer_question`).

Python per-page effects are modelled by explicit per-page outcome data:
a PDF page's `page.extract_text()` call is an `Option String` (`none` =
the call raised an exception, caught by the per-page handler), and a
cloud-OCR page's HTTP interaction is an `HttpResult`.  Console printing
and the fire-and-forget Firestore metadata write do not affect any
returned value and are not modelled.
-/

set_option maxRecDepth 20000

namespace LegacyLogic

/-- Characters removed by Python `str.strip()` (ASCII whitespace set). -/
def pyWs (c : Char) : Bool :=
  c = ' ' || c = '\t' || c = '\n' || c = '\r' || c = '\x0b' || c = '\x0c'

/-- Remove trailing characters satisfying `pyWs` from a character list. -/
def trimR : List Char → List Char
  | [] => []
  | a :: as =>
    let r := trimR as
    if r.isEmpty && pyWs a then [] else a :: r

/-- Python `str.strip()` on character lists: drop leading and trailing
whitespace. -/
def pyStripList (l : List Char) : List Char :=
  trimR (l.dropWhile pyWs)

/-- Python `str.strip()`. -/
def pyStrip (s : String) : String :=
  ⟨pyStripList s.data⟩

/-- Python truthiness of an optional string (`None` and `""` are falsy). -/
def pyTruthy : Option String → Bool
  | none => false
  | some s => !s.isEmpty

/-- Python truthiness of the `text_by_page` value (`None` and the empty
dict are falsy). -/
def pyTruthyStore : Option (List (Nat × String)) → Bool
  | none => false
  | some l => !l.isEmpty

/-- Python `not question or not question.strip()`. -/
def pyStrBlank (q : String) : Bool :=
  q.isEmpty || (pyStrip q).isEmpty

/-- Helper for Python `f"{n:,}"`: insert a comma before every third digit,
working over the reversed digit list (`i` counts digits already seen). -/
def commaRev : Nat → List Char → List Char
  | _, [] => []
  | i, c :: cs =>
    if i % 3 = 0 ∧ i ≠ 0 then ',' :: c :: commaRev (i + 1) cs
    else c :: commaRev (i + 1) cs

/-- Python `f"{n:,}"` thousands-separated decimal rendering of a `Nat`. -/
def pyCommaFmt (n : Nat) : String :=
  ⟨(commaRev 0 (toString n).data.reverse).reverse⟩

/-- Split a character list on a separator character (Python
`str.split(sep)` with a one-character separator: always at least one
piece, empty pieces kept). -/
def splitOnChar (sep : Char) : List Char → List (List Char)
  | [] => [[]]
  | c :: cs =>
    match splitOnChar sep cs with
    | [] => [[]]
    | h :: t => if c = sep then [] :: h :: t else (c :: h) :: t

/-- Python `str.split(sep)` for a one-character separator. -/
def pySplit (sep : Char) (s : String) : List String :=
  (splitOnChar sep s.data).map (fun l => ⟨l⟩)

/-- Python `str.lower()` (ASCII case folding suffices here). -/
def pyLower (s : String) : String :=
  ⟨s.data.map Char.toLower⟩

/-- Body of the Google Vision HTTP response, as inspected by
`ocr_image_with_google_vision`. -/
inductive VisionBody where
  | errorResp (msg : String)
  | fullText (t : String)
  | noText
  | malformed
deriving DecidableEq

/-- Outcome of the single `requests.post` call made for one page. -/
inductive HttpResult where
  | timeout
  | response (status : Nat) (body : VisionBody)
deriving DecidableEq

/-- Record of one HTTP call (its timeout argument, in seconds). -/
structure HttpCall where
  timeoutSeconds : Nat
deriving DecidableEq

/-- A PDF document, represented by the per-page outcomes the Python code
observes: `readerOk` is whether `PdfReader` succeeds, `pages` holds each
page's `extract_text()` outcome (`none` = exception), `convertOk` is
whether `convert_from_path` succeeds, and `scans` holds each rasterized
page's cloud-OCR HTTP outcome. -/
structure Document where
  readerOk : Bool
  pages : List (Option String)
  convertOk : Bool
  scans : List HttpResult

/-- `ocr_image_with_google_vision` (app.py 87-152): one `requests.post`
with `timeout=60`; status 200 with `fullTextAnnotation` yields the text,
every other outcome (API error, no text, missing `responses`, non-200,
timeout, other exception) yields `""`.  Returns the text together with
the list of HTTP calls made (always exactly one). -/
def ocr_image_with_google_vision : HttpResult → String × List HttpCall
  | HttpResult.timeout => ("", [⟨60⟩])
  | HttpResult.response status body =>
    if status = 200 then
      match body with
      | VisionBody.errorResp _ => ("", [⟨60⟩])
      | VisionBody.fullText t => (t, [⟨60⟩])
      | VisionBody.noText => ("", [⟨60⟩])
      | VisionBody.malformed => ("", [⟨60⟩])
    else ("", [⟨60⟩])

/-- One iteration of the page loop of `extract_text_from_pdf_fast`
(app.py 57-67): a page whose `extract_text()` raised contributes
nothing, and a page's text is stored stripped only when it is nonempty
and strips to a nonempty string. -/
def pageEntry (n : Nat) : Option String → List (Nat × String)
  | some text =>
    if text ≠ "" ∧ pyStrip text ≠ "" then [(n, pyStrip text)] else []
  | none => []

/-- The page loop of `extract_text_from_pdf_fast` (app.py 57-67), pages
numbered from `n`. -/
def collectPages : Nat → List (Option String) → List (Nat × String)
  | _, [] => []
  | n, o :: rest => pageEntry n o ++ collectPages (n + 1) rest

/-- One iteration of the page loop of `ocr_pdf_with_cloud`
(app.py 176-184): the page's OCR text is stored stripped only when it is
nonempty and strips to a nonempty string. -/
def ocrEntry (n : Nat) (r : HttpResult) : List (Nat × String) :=
  let text := (ocr_image_with_google_vision r).1
  if text ≠ "" ∧ pyStrip text ≠ "" then [(n, pyStrip text)] else []

/-- The page loop of `ocr_pdf_with_cloud` (app.py 176-184), pages
numbered from `n`. -/
def collectOcr : Nat → List HttpResult → List (Nat × String)
  | _, [] => []
  | n, r :: rest => ocrEntry n r ++ collectOcr (n + 1) rest

/-- `sum(len(text) for text in text_by_page.values())` (app.py 69, 186,
253). -/
def sumChars (tbp : List (Nat × String)) : Nat :=
  (tbp.map (fun e => e.2.length)).sum

/-- `extract_text_from_pdf_fast` (app.py 43-85): returns the page map
when the total stripped character count is strictly greater than 500,
otherwise `None`; a reader-level exception also yields `None`. -/
def extract_text_from_pdf_fast (doc : Document) : Option (List (Nat × String)) :=
  if doc.readerOk = false then none
  else
    let text_by_page := collectPages 1 doc.pages
    if 500 < sumChars text_by_page then some text_by_page else none

/-- `ocr_pdf_with_cloud` (app.py 154-201): `None` when the Vision API key
is not configured, when PDF-to-image conversion fails, or when no page
yields text; otherwise the page map. -/
def ocr_pdf_with_cloud (visionKey : Option String) (doc : Document) :
    Option (List (Nat × String)) :=
  if pyTruthy visionKey = false then none
  else if doc.convertOk = false then none
  else
    let text_by_page := collectOcr 1 doc.scans
    if text_by_page.isEmpty then none else some text_by_page

/-- Extraction-method label for the text-layer attempt (app.py 222). -/
def fastName : String := "Fast Text Extraction"

/-- Extraction-method label for the cloud-OCR attempt (app.py 238). -/
def cloudName : String := "Cloud OCR (Google Vision)"

/-- Error message built when the text layer fails and no Vision key is
configured (app.py 227-233). -/
def errMsgNoOcr : String :=
  "⚠️ **No readable text found**\n\nThis PDF appears to be scanned/image-based.\n\n**OCR is not configured** - Google Vision API key is missing.\n\nPlease either:\n- Upload a PDF with selectable text, OR\n- Configure Google Cloud Vision API for OCR\n\nContact admin for OCR setup."

/-- Error message built when both extraction methods fail
(app.py 241-250). -/
def errMsgBothFailed : String :=
  "❌ **Processing Failed**\n\nCould not extract text using both methods:\n- Fast text extraction: No selectable text\n- Cloud OCR: Failed or no text detected\n\n**Possible reasons:**\n- PDF is corrupted or encrypted\n- Image quality too poor for OCR\n- API quota exceeded\n- Network/timeout issues\n\nPlease try a different PDF or contact support."

/-- Error message for fewer than 100 extracted characters
(app.py 257-259). -/
def insufficientMsg (total pages : Nat) : String :=
  "⚠️ **Insufficient content extracted**\n\nOnly " ++ toString total ++
  " characters from " ++ toString pages ++
  " pages.\nDocument may be empty or have very poor quality."

/-- Success message of `process_document` (app.py 277-294). -/
def successMsg (filename : String) (tbp : List (Nat × String)) (total : Nat)
    (method : String) : String :=
  let first_page_text := (tbp.headD (0, "")).2
  let preview_length := min 300 first_page_text.length
  "✅ **Document Processed Successfully!**\n\n📄 **File:** " ++ filename ++
  "\n📊 **Pages:** " ++ toString tbp.length ++
  "\n📝 **Characters:** " ++ pyCommaFmt total ++
  "\n🔧 **Method:** " ++ method ++ "\n" ++
  (if method = "Fast Text Extraction" then
    "⚡ **Processing Time:** ~5-10 seconds\n\n"
  else "⏱️ **Processing Time:** ~30-90 seconds (OCR)\n\n") ++
  "**Content Preview (Page 1):**\n```\n" ++
  first_page_text.take preview_length ++ "...\n```\n\n" ++
  "✓ **Ready to answer questions!**"

/-- Result of `process_document`: the three returned values (status
message, page store, filename), instrumented with the ordered list of
extraction attempts that ran and whether `ocr_pdf_with_cloud` was
invoked. -/
structure ProcResult where
  message : String
  store : Option (List (Nat × String))
  filename : String
  attempts : List String
  ocrCalled : Bool

/-- Tail of `process_document` once a page map exists (app.py 253-296):
reject totals below 100, otherwise succeed with the store.  The Firestore
metadata write (app.py 263-274) is fire-and-forget and does not affect
the returned values. -/
def storeResult (tbp : List (Nat × String)) (method filename : String)
    (attempts : List String) (ocrCalled : Bool) : ProcResult :=
  let total_chars := sumChars tbp
  if total_chars < 100 then
    ⟨insufficientMsg total_chars tbp.length, none, "", attempts, ocrCalled⟩
  else
    ⟨successMsg filename tbp total_chars method, some tbp, filename,
      attempts, ocrCalled⟩

/-- `process_document` (app.py 203-296).  `file` is `none` when no file
was uploaded, otherwise the pair of the uploaded file's name (`file.name`)
and the document's per-page outcome data. -/
def process_document (user_id : Option String)
    (file : Option (String × Document)) (visionKey : Option String) :
    ProcResult :=
  if pyTruthy user_id = false then ⟨"❌ Please login first", none, "", [], false⟩
  else
    match file with
    | none => ⟨"❌ No file uploaded", none, "", [], false⟩
    | some (name, doc) =>
      let file_ext := pyLower ((pySplit '.' name).getLastD "")
      let filename := (pySplit '/' name).getLastD ""
      if file_ext ≠ "pdf" then
        ⟨"❌ Only PDF files are supported", none, "", [], false⟩
      else
        match extract_text_from_pdf_fast doc with
        | some text_by_page =>
          storeResult text_by_page fastName filename [fastName] false
        | none =>
          if pyTruthy visionKey = false then
            ⟨errMsgNoOcr, none, "", [fastName], false⟩
          else
            match ocr_pdf_with_cloud visionKey doc with
            | none =>
              ⟨errMsgBothFailed, none, "", [fastName, cloudName], true⟩
            | some text_by_page =>
              storeResult text_by_page cloudName filename
                [fastName, cloudName] true

/-- One conversation message (`{"role": ..., "content": ...}`). -/
structure ChatMsg where
  role : String
  content : String
deriving DecidableEq

/-- The per-page context parts of `answer_question` (app.py 314-316),
instrumented with the page numbers each part covers (one page per part). -/
def contextChunks (tbp : List (Nat × String)) : List (List Nat × String) :=
  tbp.map (fun e =>
    ([e.1], "=== PAGE " ++ toString e.1 ++ " ===\n" ++ pyStrip e.2))

/-- `"\n\n".join(context_parts)` (app.py 318). -/
def buildContext (tbp : List (Nat × String)) : String :=
  String.intercalate "\n\n" ((contextChunks tbp).map (fun c => c.2))

/-- Literal prompt segment before the document name (app.py 325-327). -/
def promptSegA : String :=
  "You are an AI assistant helping Chartered Accountants analyze tax and financial documents.\n\nDOCUMENT: "

/-- Literal prompt segment between the document name and the context
(app.py 327-329). -/
def promptSegB : String := "\n\nFULL DOCUMENT CONTENT:\n"

/-- Literal prompt segment between the context and the question
(app.py 330-332). -/
def promptSegC : String := "\n\nUSER QUESTION: "

/-- Literal instruction block after the question (app.py 332-342). -/
def promptSegD : String :=
  "\n\nINSTRUCTIONS:\n1. Carefully read the entire document content above\n2. Answer using ONLY information found in the document\n3. Always cite page numbers in [Page X] format when referencing information\n4. Quote specific text from the document to support your answer\n5. If the information is not in the document, clearly state: \"The document does not contain information about [topic]\"\n6. Be precise, accurate, and professional in your response\n\nANSWER:"

/-- The citation instruction line of the prompt (app.py 337). -/
def citeLine : String :=
  "3. Always cite page numbers in [Page X] format when referencing information"

/-- The f-string prompt of `answer_question` (app.py 325-342). -/
def buildPrompt (current_filename context question : String) : String :=
  promptSegA ++ current_filename ++ promptSegB ++ context ++ promptSegC ++
  question ++ promptSegD

/-- Result of `answer_question`: the returned history and cleared
question box, instrumented with the number of Groq completion calls
made. -/
structure AnswerResult where
  history : List ChatMsg
  questionOut : String
  groqCalls : Nat

/-- `answer_question` (app.py 298-363).  `groq` is the completion-service
oracle: the outcome of `groq_client.chat.completions.create` on the given
prompt (`Except.error` = the API raised). -/
def answer_question (question : String)
    (text_by_page : Option (List (Nat × String))) (history : List ChatMsg)
    (user_id : Option String) (current_filename : String)
    (groq : String → Except String String) : AnswerResult :=
  if pyTruthy user_id = false then
    ⟨history ++ [⟨"assistant", "❌ Please login first"⟩], "", 0⟩
  else if pyTruthyStore text_by_page = false then
    ⟨history ++ [⟨"assistant", "⚠️ Please upload and process a document first"⟩], "", 0⟩
  else if pyStrBlank question then
    ⟨history ++ [⟨"assistant", "⚠️ Please enter a question"⟩], "", 0⟩
  else
    -- On this branch `text_by_page` is a nonempty `some`; `getD` only
    -- discharges the `Option`.
    let tbp := text_by_page.getD []
    let h1 := history ++ [⟨"user", question⟩]
    let context := buildContext tbp
    let prompt := buildPrompt current_filename context question
    match groq prompt with
    | Except.ok answer => ⟨h1 ++ [⟨"assistant", answer⟩], "", 1⟩
    | Except.error e =>
      ⟨h1 ++ [⟨"assistant", "❌ **AI Error:** " ++ e ++ "\n\nPlease try again."⟩], "", 1⟩

/-- Whether `pat` occurs at the start of `l`. -/
def startsWithSeq : List Char → List Char → Bool
  | [], _ => true
  | _ :: _, [] => false
  | a :: as, b :: bs => a == b && startsWithSeq as bs

/-- Whether `pat` occurs as a contiguous subsequence of `l`. -/
def containsSeq (pat : List Char) : List Char → Bool
  | [] => startsWithSeq pat []
  | b :: rest => startsWithSeq pat (b :: rest) || containsSeq pat rest

/-- A run of `n` copies of a character, used to build concrete test
documents of controlled character counts. -/
def runOf (c : Char) (n : Nat) : String := ⟨List.replicate n c⟩

/-- Concrete document whose text layer yields exactly 500 characters. -/
def cDoc500 : Document :=
  ⟨true, [some (runOf 'a' 200), some (runOf 'a' 200), some (runOf 'a' 100)], true, []⟩

/-- Concrete document whose text layer yields 501 characters. -/
def cDoc501 : Document :=
  ⟨true, [some (runOf 'a' 200), some (runOf 'a' 200), some (runOf 'a' 101)], true, []⟩

/-- Concrete document whose text layer yields 400 characters (below the
gate) and whose cloud OCR yields 150 characters. -/
def cDocB : Document :=
  ⟨true, [some (runOf 'b' 200), some (runOf 'b' 200)], true,
    [HttpResult.response 200 (VisionBody.fullText (runOf 'c' 150))]⟩

/-- Concrete scanned document: empty text layer, cloud OCR yields 120
characters. -/
def cDocD : Document :=
  ⟨true, [], true, [HttpResult.response 200 (VisionBody.fullText (runOf 'd' 120))]⟩

/-- Concrete scanned document: empty text layer, cloud OCR yields 120
characters. -/
def cDocE : Document :=
  ⟨true, [], true, [HttpResult.response 200 (VisionBody.fullText (runOf 'e' 120))]⟩

/-- Concrete scanned document: empty text layer, cloud OCR yields 120
characters. -/
def cDocF : Document :=
  ⟨true, [], true, [HttpResult.response 200 (VisionBody.fullText (runOf 'f' 120))]⟩

/-- Concrete scanned document: empty text layer, cloud OCR yields 120
characters. -/
def cDocG : Document :=
  ⟨true, [], true, [HttpResult.response 200 (VisionBody.fullText (runOf 'g' 120))]⟩

/-! ### Lemmas about Python string stripping -/

theorem trimR_idem (l : List Char) : trimR (trimR l) = trimR l := by
  induction l with
  | nil => rfl
  | cons a as ih =>
    simp only [trimR]
    by_cases h : (trimR as).isEmpty && pyWs a
    · simp only [if_pos h]
      rfl
    · simp only [if_neg h]
      simp only [trimR, ih, if_neg h]

theorem trimR_head (a : Char) (as : List Char) :
    trimR (a :: as) = [] ∨ ∃ t, trimR (a :: as) = a :: t := by
  by_cases h : (trimR as).isEmpty && pyWs a
  · left; simp [trimR, h]
  · right; exact ⟨trimR as, by simp [trimR, h]⟩

theorem dropWhile_head_not {α : Type} (p : α → Bool) :
    ∀ (l : List α) (c : α) (cs : List α), l.dropWhile p = c :: cs → p c = false := by
  intro l
  induction l with
  | nil => intro c cs h; simp [List.dropWhile] at h
  | cons a as ih =>
    intro c cs h
    by_cases hp : p a
    · simp only [List.dropWhile, hp] at h
      exact ih c cs h
    · have hp' : p a = false := by simpa using hp
      simp only [List.dropWhile, hp'] at h
      injection h with h1 h2
      rw [← h1]
      exact hp'

theorem dropWhile_trimR_fixed (l : List Char) :
    (trimR (l.dropWhile pyWs)).dropWhile pyWs = trimR (l.dropWhile pyWs) := by
  cases h : l.dropWhile pyWs with
  | nil => rfl
  | cons c cs =>
    have hc : pyWs c = false := dropWhile_head_not pyWs l c cs h
    rcases trimR_head c cs with h2 | ⟨t, h2⟩
    · rw [h2]; rfl
    · rw [h2]
      simp [List.dropWhile, hc]

theorem pyStripList_idem (l : List Char) :
    pyStripList (pyStripList l) = pyStripList l := by
  unfold pyStripList
  rw [dropWhile_trimR_fixed, trimR_idem]

/-- `str.strip()` is idempotent: a stripped string has no leading or
trailing whitespace left to remove. -/
theorem pyStrip_idem (s : String) : pyStrip (pyStrip s) = pyStrip s :=
  congrArg String.mk (pyStripList_idem s.data)

/-! ### Lemmas about the page collectors -/

theorem collectPages_append (n : Nat) (xs ys : List (Option String)) :
    collectPages n (xs ++ ys) =
      collectPages n xs ++ collectPages (n + xs.length) ys := by
  induction xs generalizing n with
  | nil => simp [collectPages]
  | cons o rest ih =>
    have h1 : collectPages n ((o :: rest) ++ ys) =
        pageEntry n o ++ collectPages (n + 1) (rest ++ ys) := rfl
    have h2 : collectPages n (o :: rest) =
        pageEntry n o ++ collectPages (n + 1) rest := rfl
    rw [h1, h2, ih (n + 1), List.append_assoc]
    have h3 : n + 1 + rest.length = n + (o :: rest).length := by
      rw [List.length_cons]
      omega
    rw [h3]

theorem collectOcr_append (n : Nat) (xs ys : List HttpResult) :
    collectOcr n (xs ++ ys) =
      collectOcr n xs ++ collectOcr (n + xs.length) ys := by
  induction xs generalizing n with
  | nil => simp [collectOcr]
  | cons r rest ih =>
    have h1 : collectOcr n ((r :: rest) ++ ys) =
        ocrEntry n r ++ collectOcr (n + 1) (rest ++ ys) := rfl
    have h2 : collectOcr n (r :: rest) =
        ocrEntry n r ++ collectOcr (n + 1) rest := rfl
    rw [h1, h2, ih (n + 1), List.append_assoc]
    have h3 : n + 1 + rest.length = n + (r :: rest).length := by
      rw [List.length_cons]
      omega
    rw [h3]

theorem mem_collectPages {n p : Nat} {t : String} {ps : List (Option String)}
    (h : (p, t) ∈ collectPages n ps) :
    ∃ s, t = pyStrip s ∧ pyStrip s ≠ "" := by
  induction ps generalizing n with
  | nil => simp [collectPages] at h
  | cons o rest ih =>
    simp only [collectPages, List.mem_append] at h
    rcases h with h | h
    · cases o with
      | none => simp [pageEntry] at h
      | some text =>
        simp only [pageEntry] at h
        by_cases hc : text ≠ "" ∧ pyStrip text ≠ ""
        · rw [if_pos hc] at h
          simp only [List.mem_singleton, Prod.mk.injEq] at h
          exact ⟨text, h.2, hc.2⟩
        · rw [if_neg hc] at h
          simp at h
    · exact ih h

theorem mem_collectOcr {n p : Nat} {t : String} {rs : List HttpResult}
    (h : (p, t) ∈ collectOcr n rs) :
    ∃ s, t = pyStrip s ∧ pyStrip s ≠ "" := by
  induction rs generalizing n with
  | nil => simp [collectOcr] at h
  | cons r rest ih =>
    simp only [collectOcr, List.mem_append] at h
    rcases h with h | h
    · simp only [ocrEntry] at h
      by_cases hc : (ocr_image_with_google_vision r).1 ≠ "" ∧
          pyStrip (ocr_image_with_google_vision r).1 ≠ ""
      · rw [if_pos hc] at h
        simp only [List.mem_singleton, Prod.mk.injEq] at h
        exact ⟨(ocr_image_with_google_vision r).1, h.2, hc.2⟩
      · rw [if_neg hc] at h
        simp at h
    · exact ih h

/-! ### Lemmas about substring occurrence -/

theorem containsSeq_append_left (pat xs l : List Char)
    (h : containsSeq pat l = true) : containsSeq pat (xs ++ l) = true := by
  induction xs with
  | nil => simpa using h
  | cons a as ih =>
    simp only [List.cons_append, containsSeq, Bool.or_eq_true]
    exact Or.inr ih

theorem str_data_append (s t : String) : (s ++ t).data = s.data ++ t.data := rfl

/-! ### Lemmas about the cascade driver -/

theorem storeResult_attempts (tbp : List (Nat × String)) (method filename : String)
    (attempts : List String) (oc : Bool) :
    (storeResult tbp method filename attempts oc).attempts = attempts := by
  simp only [storeResult]
  split <;> rfl

theorem storeResult_ocrCalled (tbp : List (Nat × String)) (method filename : String)
    (attempts : List String) (oc : Bool) :
    (storeResult tbp method filename attempts oc).ocrCalled = oc := by
  simp only [storeResult]
  split <;> rfl

theorem storeResult_store_some (tbp : List (Nat × String)) (method filename : String)
    (attempts : List String) (oc : Bool) (m : List (Nat × String))
    (h : (storeResult tbp method filename attempts oc).store = some m) :
    m = tbp ∧ 100 ≤ sumChars tbp := by
  simp only [storeResult] at h
  by_cases hc : sumChars tbp < 100
  · rw [if_pos hc] at h
    simp at h
  · rw [if_neg hc] at h
    simp only [Option.some.injEq] at h
    exact ⟨h.symm, by omega⟩

theorem storeResult_store_of_ge (tbp : List (Nat × String)) (method filename : String)
    (attempts : List String) (oc : Bool) (h : ¬ sumChars tbp < 100) :
    (storeResult tbp method filename attempts oc).store = some tbp := by
  simp only [storeResult]
  rw [if_neg h]

theorem extract_fast_of_gt (doc : Document) (hr : doc.readerOk = true)
    (h5 : 500 < sumChars (collectPages 1 doc.pages)) :
    extract_text_from_pdf_fast doc = some (collectPages 1 doc.pages) := by
  unfold extract_text_from_pdf_fast
  rw [hr]
  rw [if_neg (by simp), if_pos h5]

theorem process_fast_path (uid : Option String) (name : String) (doc : Document)
    (key : Option String) (tbp : List (Nat × String))
    (hu : pyTruthy uid = true)
    (hext : pyLower ((pySplit '.' name).getLastD "") = "pdf")
    (hfast : extract_text_from_pdf_fast doc = some tbp) :
    process_document uid (some (name, doc)) key =
      storeResult tbp fastName ((pySplit '/' name).getLastD "") [fastName] false := by
  unfold process_document
  rw [hu]
  rw [if_neg (by simp)]
  simp only [hfast, hext]
  rw [if_neg (by simp)]

theorem process_ocr_path_some (uid : Option String) (name : String) (doc : Document)
    (key : Option String) (tbp : List (Nat × String))
    (hu : pyTruthy uid = true)
    (hext : pyLower ((pySplit '.' name).getLastD "") = "pdf")
    (hfast : extract_text_from_pdf_fast doc = none)
    (hkey : pyTruthy key = true)
    (hocr : ocr_pdf_with_cloud key doc = some tbp) :
    process_document uid (some (name, doc)) key =
      storeResult tbp cloudName ((pySplit '/' name).getLastD "")
        [fastName, cloudName] true := by
  unfold process_document
  rw [hu]
  rw [if_neg (by simp)]
  simp only [hfast, hext, hkey, hocr]
  rw [if_neg (by simp), if_neg (by simp)]

theorem process_ocr_path_none (uid : Option String) (name : String) (doc : Document)
    (key : Option String)
    (hu : pyTruthy uid = true)
    (hext : pyLower ((pySplit '.' name).getLastD "") = "pdf")
    (hfast : extract_text_from_pdf_fast doc = none)
    (hkey : pyTruthy key = true)
    (hocr : ocr_pdf_with_cloud key doc = none) :
    process_document uid (some (name, doc)) key =
      ⟨errMsgBothFailed, none, "", [fastName, cloudName], true⟩ := by
  unfold process_document
  rw [hu]
  rw [if_neg (by simp)]
  simp only [hfast, hext, hkey, hocr]
  rw [if_neg (by simp), if_neg (by simp)]

theorem process_not_logged (uid : Option String) (file : Option (String × Document))
    (key : Option String) (hu : pyTruthy uid = false) :
    process_document uid file key = ⟨"❌ Please login first", none, "", [], false⟩ := by
  unfold process_document
  rw [if_pos hu]

theorem process_no_file (uid : Option String) (key : Option String)
    (hu : pyTruthy uid = true) :
    process_document uid none key = ⟨"❌ No file uploaded", none, "", [], false⟩ := by
  unfold process_document
  rw [hu]
  rw [if_neg (by simp)]

theorem process_bad_ext (uid : Option String) (name : String) (doc : Document)
    (key : Option String) (hu : pyTruthy uid = true)
    (hext : ¬ pyLower ((pySplit '.' name).getLastD "") = "pdf") :
    process_document uid (some (name, doc)) key =
      ⟨"❌ Only PDF files are supported", none, "", [], false⟩ := by
  unfold process_document
  rw [hu]
  rw [if_neg (by simp)]
  simp only [if_pos hext]

theorem process_no_key (uid : Option String) (name : String) (doc : Document)
    (key : Option String) (hu : pyTruthy uid = true)
    (hext : pyLower ((pySplit '.' name).getLastD "") = "pdf")
    (hfast : extract_text_from_pdf_fast doc = none)
    (hkey : pyTruthy key = false) :
    process_document uid (some (name, doc)) key =
      ⟨errMsgNoOcr, none, "", [fastName], false⟩ := by
  unfold process_document
  rw [hu]
  rw [if_neg (by simp)]
  simp only [hfast, hext, hkey]
  simp

/-! ### Claim theorems -/

/-- C1 counterexample: a document whose text-layer extraction totals
exactly 500 characters — equal to the claimed threshold, so the claim
says the text-layer result is accepted with no OCR call — nevertheless
has `ocr_pdf_with_cloud` invoked, because the code's gate is the strict
`total_chars > 500`. -/
theorem C1_counterexample :
    sumChars (collectPages 1 cDoc500.pages) = 500 ∧
    (process_document (some "u") (some ("a.pdf", cDoc500)) (some "k")).ocrCalled = true := by
  refine ⟨by decide, by decide⟩

/-- C1 (amended): the quality gate is strict — whenever the text-layer
extraction's total character count is strictly greater than 500, the
cascade accepts the text-layer result as the final store and no OCR
method is invoked; OCR is attempted only when the total is at most
500. -/
theorem C1_strict_gate (uid : Option String) (name : String) (doc : Document)
    (key : Option String)
    (hu : pyTruthy uid = true)
    (hext : pyLower ((pySplit '.' name).getLastD "") = "pdf")
    (hr : doc.readerOk = true)
    (h5 : 500 < sumChars (collectPages 1 doc.pages)) :
    (process_document uid (some (name, doc)) key).ocrCalled = false ∧
    (process_document uid (some (name, doc)) key).store =
      some (collectPages 1 doc.pages) ∧
    (process_document uid (some (name, doc)) key).attempts = [fastName] := by
  have hfast := extract_fast_of_gt doc hr h5
  rw [process_fast_path uid name doc key _ hu hext hfast]
  exact ⟨storeResult_ocrCalled _ _ _ _ _,
    storeResult_store_of_ge _ _ _ _ _ (by omega),
    storeResult_attempts _ _ _ _ _⟩

/-- C1 witness: a logged-in user processing a 3-page PDF whose text
layer totals 501 characters gets the text-layer store with no OCR
call. -/
theorem C1_strict_gate_witness :
    (pyTruthy (some "u") = true ∧
      pyLower ((pySplit '.' "a.pdf").getLastD "") = "pdf" ∧
      cDoc501.readerOk = true ∧
      500 < sumChars (collectPages 1 cDoc501.pages)) ∧
    ((process_document (some "u") (some ("a.pdf", cDoc501)) (some "k")).ocrCalled = false ∧
      (process_document (some "u") (some ("a.pdf", cDoc501)) (some "k")).store =
        some (collectPages 1 cDoc501.pages) ∧
      (process_document (some "u") (some ("a.pdf", cDoc501)) (some "k")).attempts =
        [fastName]) :=
  ⟨⟨by decide, by decide, by decide, by decide⟩,
    C1_strict_gate (some "u") "a.pdf" cDoc501 (some "k")
      (by decide) (by decide) (by decide) (by decide)⟩

/-- C2 counterexample: both attempts run on `cDocB`; the text-layer
attempt extracted 400 characters and the cloud-OCR attempt only 150,
yet the final store is the 150-character OCR store — the attempt with
the strictly greater total is discarded, refuting the claimed selection
policy. -/
theorem C2_counterexample :
    (process_document (some "u") (some ("a.pdf", cDocB)) (some "k")).ocrCalled = true ∧
    sumChars (collectPages 1 cDocB.pages) = 400 ∧
    (process_document (some "u") (some ("a.pdf", cDocB)) (some "k")).store =
      some [(1, runOf 'c' 150)] ∧
    sumChars [(1, runOf 'c' 150)] = 150 := by
  refine ⟨by decide, by decide, by decide, by decide⟩

/-- C2 (amended): whenever more than one extraction attempt is run, the
totals are never compared — any final store returned is exactly the
cloud-OCR attempt's result, even when the discarded text-layer attempt
had strictly more characters. -/
theorem C2_ocr_result_kept (uid : Option String) (name : String) (doc : Document)
    (key : Option String) (m : List (Nat × String))
    (hu : pyTruthy uid = true)
    (hext : pyLower ((pySplit '.' name).getLastD "") = "pdf")
    (hfast : extract_text_from_pdf_fast doc = none)
    (hkey : pyTruthy key = true)
    (hm : (process_document uid (some (name, doc)) key).store = some m) :
    (process_document uid (some (name, doc)) key).ocrCalled = true ∧
    ocr_pdf_with_cloud key doc = some m := by
  cases hocr : ocr_pdf_with_cloud key doc with
  | none =>
    rw [process_ocr_path_none uid name doc key hu hext hfast hkey hocr] at hm
    simp at hm
  | some tbp =>
    rw [process_ocr_path_some uid name doc key tbp hu hext hfast hkey hocr] at hm ⊢
    obtain ⟨rfl, -⟩ := storeResult_store_some _ _ _ _ _ _ hm
    exact ⟨storeResult_ocrCalled _ _ _ _ _, rfl⟩

/-- C2 witness: a scanned PDF with an empty text layer and a
120-character cloud OCR result ends with exactly the OCR store. -/
theorem C2_ocr_result_kept_witness :
    (pyTruthy (some "u") = true ∧
      pyLower ((pySplit '.' "a.pdf").getLastD "") = "pdf" ∧
      extract_text_from_pdf_fast cDocD = none ∧
      pyTruthy (some "k") = true ∧
      (process_document (some "u") (some ("a.pdf", cDocD)) (some "k")).store =
        some [(1, runOf 'd' 120)]) ∧
    ((process_document (some "u") (some ("a.pdf", cDocD)) (some "k")).ocrCalled = true ∧
      ocr_pdf_with_cloud (some "k") cDocD = some [(1, runOf 'd' 120)]) :=
  ⟨⟨by decide, by decide, by decide, by decide, by decide⟩,
    C2_ocr_result_kept (some "u") "a.pdf" cDocD (some "k") [(1, runOf 'd' 120)]
      (by decide) (by decide) (by decide) (by decide) (by decide)⟩

/-- C3 counterexample: on a document that fails the quality gate, the
recorded attempt sequence is exactly text layer followed by cloud OCR —
no local OCR attempt exists anywhere in the cascade, refuting the claim
that a local OCR attempt runs before cloud OCR. -/
theorem C3_counterexample :
    extract_text_from_pdf_fast cDocE = none ∧
    (process_document (some "u") (some ("b.pdf", cDocE)) (some "k")).attempts =
      [fastName, cloudName] ∧
    (process_document (some "u") (some ("b.pdf", cDocE)) (some "k")).store =
      some [(1, runOf 'e' 120)] := by
  refine ⟨by decide, by decide, by decide⟩

/-- C3 (amended): the cascade has no local OCR stage — whenever the
text-layer attempt fails the gate and a cloud key is configured, the
second and final attempt is directly cloud OCR. -/
theorem C3_no_local_ocr (uid : Option String) (name : String) (doc : Document)
    (key : Option String)
    (hu : pyTruthy uid = true)
    (hext : pyLower ((pySplit '.' name).getLastD "") = "pdf")
    (hfast : extract_text_from_pdf_fast doc = none)
    (hkey : pyTruthy key = true) :
    (process_document uid (some (name, doc)) key).attempts =
      [fastName, cloudName] := by
  cases hocr : ocr_pdf_with_cloud key doc with
  | none =>
    rw [process_ocr_path_none uid name doc key hu hext hfast hkey hocr]
  | some tbp =>
    rw [process_ocr_path_some uid name doc key tbp hu hext hfast hkey hocr]
    exact storeResult_attempts _ _ _ _ _

/-- C3 witness: a scanned PDF runs exactly the two attempts text layer
then cloud OCR. -/
theorem C3_no_local_ocr_witness :
    (pyTruthy (some "u") = true ∧
      pyLower ((pySplit '.' "b.pdf").getLastD "") = "pdf" ∧
      extract_text_from_pdf_fast cDocF = none ∧
      pyTruthy (some "k") = true) ∧
    (process_document (some "u") (some ("b.pdf", cDocF)) (some "k")).attempts =
      [fastName, cloudName] :=
  ⟨⟨by decide, by decide, by decide, by decide⟩,
    C3_no_local_ocr (some "u") "b.pdf" cDocF (some "k")
      (by decide) (by decide) (by decide) (by decide)⟩

/-- C4 counterexample: the assembled prompt for a concrete store and
question nowhere contains the string `[Document:` — the instruction text
cannot require citations of the form `[Document: <name>, Page: <n>]`
since that format never appears in it. -/
theorem C4_counterexample :
    containsSeq "[Document:".data
      (buildPrompt "doc.pdf" (buildContext [(1, "hello")]) "What?").data = false := by
  decide

/-- C4 (amended): every assembled prompt instructs the completion
service to cite page numbers in the `[Page X]` format (page number only,
no document name and no page-range form). -/
theorem C4_page_citation_format (current_filename context question : String) :
    containsSeq citeLine.data
      (buildPrompt current_filename context question).data = true := by
  have hD : containsSeq citeLine.data promptSegD.data = true := by decide
  have hsplit : buildPrompt current_filename context question =
      (promptSegA ++ current_filename ++ promptSegB ++ context ++ promptSegC ++
        question) ++ promptSegD := rfl
  rw [hsplit, str_data_append]
  exact containsSeq_append_left _ _ _ hD

/-- C5: the cascade never returns a successful store with fewer than 100
total characters — every path of `process_document` that returns
`some` store passed the minimum-content validation, so a document
yielding under 100 characters (in particular an all-blank one) always
produces an error result with no store. -/
theorem C5_no_small_success (uid : Option String)
    (file : Option (String × Document)) (key : Option String)
    (m : List (Nat × String))
    (h : (process_document uid file key).store = some m) :
    100 ≤ sumChars m := by
  by_cases hu : pyTruthy uid = false
  · rw [process_not_logged uid file key hu] at h
    simp at h
  · have hu' : pyTruthy uid = true := by simpa using hu
    cases file with
    | none =>
      rw [process_no_file uid key hu'] at h
      simp at h
    | some nd =>
      obtain ⟨name, doc⟩ := nd
      by_cases hext : pyLower ((pySplit '.' name).getLastD "") = "pdf"
      · cases hfast : extract_text_from_pdf_fast doc with
        | some tbp =>
          rw [process_fast_path uid name doc key tbp hu' hext hfast] at h
          obtain ⟨rfl, h100⟩ := storeResult_store_some _ _ _ _ _ _ h
          exact h100
        | none =>
          by_cases hkey : pyTruthy key = false
          · rw [process_no_key uid name doc key hu' hext hfast hkey] at h
            simp at h
          · have hkey' : pyTruthy key = true := by simpa using hkey
            cases hocr : ocr_pdf_with_cloud key doc with
            | none =>
              rw [process_ocr_path_none uid name doc key hu' hext hfast hkey' hocr] at h
              simp at h
            | some tbp =>
              rw [process_ocr_path_some uid name doc key tbp hu' hext hfast hkey' hocr] at h
              obtain ⟨rfl, h100⟩ := storeResult_store_some _ _ _ _ _ _ h
              exact h100
      · rw [process_bad_ext uid name doc key hu' hext] at h
        simp at h

/-- C5 witness: a successfully processed 120-character document indeed
has at least 100 characters in its returned store. -/
theorem C5_no_small_success_witness :
    ((process_document (some "u") (some ("a.pdf", cDocG)) (some "k")).store =
      some [(1, runOf 'g' 120)]) ∧
    100 ≤ sumChars [(1, runOf 'g' 120)] :=
  ⟨by decide,
    C5_no_small_success (some "u") (some ("a.pdf", cDocG)) (some "k")
      [(1, runOf 'g' 120)] (by decide)⟩

/-- C6: when no document has been processed (the page store is falsy) or
the question is blank, `answer_question` makes zero completion-service
calls and immediately appends one of the fixed error messages to the
history. -/
theorem C6_no_wasted_call (question : String)
    (tbp : Option (List (Nat × String))) (history : List ChatMsg)
    (uid : Option String) (fn : String) (groq : String → Except String String)
    (h : pyTruthyStore tbp = false ∨ pyStrBlank question = true) :
    (answer_question question tbp history uid fn groq).groqCalls = 0 ∧
    ∃ msg, (answer_question question tbp history uid fn groq).history =
        history ++ [ChatMsg.mk "assistant" msg] ∧
      (msg = "❌ Please login first" ∨
        msg = "⚠️ Please upload and process a document first" ∨
        msg = "⚠️ Please enter a question") := by
  unfold answer_question
  by_cases hu : pyTruthy uid = false
  · rw [if_pos hu]
    exact ⟨rfl, "❌ Please login first", rfl, Or.inl rfl⟩
  · rw [if_neg hu]
    by_cases hs : pyTruthyStore tbp = false
    · rw [if_pos hs]
      exact ⟨rfl, "⚠️ Please upload and process a document first", rfl,
        Or.inr (Or.inl rfl)⟩
    · rw [if_neg hs]
      have hq : pyStrBlank question = true := by
        rcases h with h | h
        · exact absurd h hs
        · exact h
      rw [if_pos hq]
      exact ⟨rfl, "⚠️ Please enter a question", rfl, Or.inr (Or.inr rfl)⟩

/-- C6 witness: asking a question with no processed document yields zero
completion calls and an error message. -/
theorem C6_no_wasted_call_witness :
    (pyTruthyStore none = false ∨ pyStrBlank "hi" = true) ∧
    ((answer_question "hi" none [] (some "u") "f.pdf"
        (fun _ => Except.ok "ans")).groqCalls = 0 ∧
      ∃ msg, (answer_question "hi" none [] (some "u") "f.pdf"
          (fun _ => Except.ok "ans")).history =
          [] ++ [ChatMsg.mk "assistant" msg] ∧
        (msg = "❌ Please login first" ∨
          msg = "⚠️ Please upload and process a document first" ∨
          msg = "⚠️ Please enter a question")) :=
  ⟨Or.inl rfl,
    C6_no_wasted_call "hi" none [] (some "u") "f.pdf"
      (fun _ => Except.ok "ans") (Or.inl rfl)⟩

/-- C7 counterexample: a 2-page document whose first page's extraction
raises an exception yields a store holding only page 2 — the failing
page 1 has no entry at all (in particular no `Error` entry carrying a
reason), refuting the claim that failing pages are recorded as `Error`
entries. -/
theorem C7_counterexample :
    collectPages 1 [none, some "hello page"] = [(2, "hello page")] ∧
    (collectPages 1 [none, some "hello page"]).lookup 1 = none := by
  refine ⟨by decide, by decide⟩

/-- C7 (amended): a page whose extraction (or cloud OCR) fails does not
abort the remaining pages — the store equals the result on the
preceding pages followed by the result on the following pages at their
original page numbers, with the failing page simply omitted (it is only
logged, never recorded as an `Error` entry). -/
theorem C7_failure_isolated (n m : Nat) (pre post : List (Option String))
    (rs1 rs2 : List HttpResult) :
    collectPages n (pre ++ none :: post) =
      collectPages n pre ++ collectPages (n + pre.length + 1) post ∧
    collectOcr m (rs1 ++ HttpResult.timeout :: rs2) =
      collectOcr m rs1 ++ collectOcr (m + rs1.length + 1) rs2 := by
  constructor
  · rw [collectPages_append]
    have h1 : collectPages (n + pre.length) (none :: post) =
        collectPages (n + pre.length + 1) post := by
      simp [collectPages, pageEntry]
    rw [h1]
  · rw [collectOcr_append]
    have h2 : collectOcr (m + rs1.length) (HttpResult.timeout :: rs2) =
        collectOcr (m + rs1.length + 1) rs2 := by
      simp [collectOcr, ocrEntry, ocr_image_with_google_vision]
    rw [h2]

/-- C8: for every page sent to the cloud OCR engine, a timeout, a
non-200 HTTP status, a missing `responses` payload, or an in-payload API
error yields empty text for that page, and exactly one HTTP call with a
60-second timeout is made — there is no retry in this layer. -/
theorem C8_failure_yields_empty (r : HttpResult)
    (h : r = HttpResult.timeout ∨
      ∃ s b, r = HttpResult.response s b ∧
        (s ≠ 200 ∨ b = VisionBody.malformed ∨
          ∃ msg, b = VisionBody.errorResp msg)) :
    (ocr_image_with_google_vision r).1 = "" ∧
    (ocr_image_with_google_vision r).2 = [⟨60⟩] := by
  have hcalls : ∀ r', (ocr_image_with_google_vision r').2 = [(⟨60⟩ : HttpCall)] := by
    intro r'
    cases r' with
    | timeout => rfl
    | response s b =>
      by_cases hs : s = 200 <;> cases b <;>
        simp [ocr_image_with_google_vision, hs]
  refine ⟨?_, hcalls r⟩
  rcases h with rfl | ⟨s, b, rfl, hb⟩
  · rfl
  · rcases hb with hs | rfl | ⟨msg, rfl⟩
    · simp [ocr_image_with_google_vision, hs]
    · by_cases hs : s = 200 <;> simp [ocr_image_with_google_vision, hs]
    · by_cases hs : s = 200 <;> simp [ocr_image_with_google_vision, hs]

/-- C8 witness: an HTTP 404 with a malformed body yields empty text from
the single 60-second-timeout call. -/
theorem C8_failure_yields_empty_witness :
    (HttpResult.response 404 VisionBody.malformed = HttpResult.timeout ∨
      ∃ s b, HttpResult.response 404 VisionBody.malformed =
          HttpResult.response s b ∧
        (s ≠ 200 ∨ b = VisionBody.malformed ∨
          ∃ msg, b = VisionBody.errorResp msg)) ∧
    ((ocr_image_with_google_vision
        (HttpResult.response 404 VisionBody.malformed)).1 = "" ∧
      (ocr_image_with_google_vision
        (HttpResult.response 404 VisionBody.malformed)).2 = [⟨60⟩]) :=
  ⟨Or.inr ⟨404, VisionBody.malformed, rfl, Or.inl (by decide)⟩,
    C8_failure_yields_empty (HttpResult.response 404 VisionBody.malformed)
      (Or.inr ⟨404, VisionBody.malformed, rfl, Or.inl (by decide)⟩)⟩

/-- C9: the concatenation, in chunk order, of the page numbers of all
context chunks built from a store reproduces the store's page order
exactly — every chunk covers exactly one page, so there are no gaps and
no duplicates beyond those of the store itself. -/
theorem C9_context_roundtrip (tbp : List (Nat × String)) :
    ((contextChunks tbp).map (fun c => c.1)).flatten = tbp.map (fun e => e.1) := by
  induction tbp with
  | nil => rfl
  | cons e rest ih =>
    simp only [contextChunks, List.map_cons, List.flatten_cons] at ih ⊢
    rw [ih]
    rfl

/-- C10: every page entry stored by either extraction method has
nonempty text with no leading or trailing whitespace — pages whose text
is empty or whitespace-only are omitted from the mapping rather than
stored. -/
theorem C10_entries_stripped (n : Nat) (ps : List (Option String))
    (rs : List HttpResult) (p : Nat) (t : String) :
    ((p, t) ∈ collectPages n ps → t ≠ "" ∧ pyStrip t = t) ∧
    ((p, t) ∈ collectOcr n rs → t ≠ "" ∧ pyStrip t = t) := by
  constructor
  · intro h
    obtain ⟨s, rfl, hne⟩ := mem_collectPages h
    exact ⟨hne, pyStrip_idem s⟩
  · intro h
    obtain ⟨s, rfl, hne⟩ := mem_collectOcr h
    exact ⟨hne, pyStrip_idem s⟩

/-- C10 witness: the stored entry of a one-page document is nonempty and
already stripped. -/
theorem C10_entries_stripped_witness :
    ((1, "ab") ∈ collectPages 1 [some "ab"]) ∧
    ("ab" ≠ "" ∧ pyStrip "ab" = "ab") :=
  ⟨by decide, (C10_entries_stripped 1 [some "ab"] [] 1 "ab").1 (by decide)⟩

end LegacyLogic
